import Mathlib

/-!
Verification of the terrahacks-2025 backend (Flask app `app.py` and CSV store
`database.py`). Python strings are modelled as `List Char`, Python runtime
values as `PyVal`, the `json` module's `loads`/`dumps` as a fuel-indexed
recursive-descent parser and a printer, the transcription endpoint as a
function of an oracle environment describing the external collaborators
(whisper, ffmpeg, the file system), and the CSV store as a list of rows.
-/

set_option autoImplicit false

namespace TH

/-- The character `\x7b` (left curly brace). -/
def lb : Char := Char.ofNat 123

/-- The character `\x7d` (right curly brace). -/
def rb : Char := Char.ofNat 125

/-- The newline character. -/
def nlc : Char := Char.ofNat 10

/-- The backquote character. -/
def tick : Char := Char.ofNat 96

/-- The single-quote character (used by Python `repr` of strings). -/
def squote : Char := Char.ofNat 39

/-- Model of Python `text.split(chr(10))`: split a character list at newlines. -/
def splitNL : List Char → List (List Char)
  | [] => [[]]
  | c :: rest =>
    if c = nlc then [] :: splitNL rest
    else
      match splitNL rest with
      | [] => [[c]]
      | l :: ls => (c :: l) :: ls

/-- Model of Python `chr(10).join(lines)`. -/
def joinNL : List (List Char) → List Char
  | [] => []
  | [l] => l
  | l :: l2 :: ls => l ++ nlc :: joinNL (l2 :: ls)

/-- `True` when three consecutive backquotes occur: model of Python
`(3 * chr(96)) in line`. -/
def hasFence : List Char → Bool
  | [] => false
  | c :: rest =>
    (decide (c = tick) &&
      (match rest with
       | a :: b :: _ => decide (a = tick) && decide (b = tick)
       | _ => false)) || hasFence rest

/-- Generic substring test on character lists (`needle` occurs in `hay`). -/
def hasSub (hay needle : List Char) : Bool :=
  match hay with
  | [] => decide (needle = [])
  | _ :: rest => needle.isPrefixOf hay || hasSub rest needle

/-- Model of a Python runtime value as produced/consumed by the `json`
module and the `csv` module: strings, integers, booleans, `None`, lists
and dicts (association lists in insertion order). -/
inductive PyVal where
  | str (s : String)
  | int (n : Int)
  | bool (b : Bool)
  | none
  | list (xs : List PyVal)
  | dict (kvs : List (String × PyVal))

mutual

/-- Python `==` on modelled runtime values.  Python makes `True == 1` and
`False == 0`; otherwise equality is structural for these value forms
(dict comparison is modelled in insertion order, which agrees with Python
on the duplicate-free dicts this program builds). -/
def pyEq : PyVal → PyVal → Bool
  | .str x, .str y => x == y
  | .int x, .int y => x == y
  | .bool x, .bool y => x == y
  | .bool x, .int n => decide ((if x then (1 : Int) else 0) = n)
  | .int n, .bool x => decide (n = (if x then (1 : Int) else 0))
  | .none, .none => true
  | .list xs, .list ys => pyEqList xs ys
  | .dict ps, .dict qs => pyEqDict ps qs
  | _, _ => false

/-- Elementwise `pyEq` on lists. -/
def pyEqList : List PyVal → List PyVal → Bool
  | [], [] => true
  | x :: xs, y :: ys => pyEq x y && pyEqList xs ys
  | _, _ => false

/-- Memberwise `pyEq` on dicts. -/
def pyEqDict : List (String × PyVal) → List (String × PyVal) → Bool
  | [], [] => true
  | p :: ps, q :: qs => (p.1 == q.1) && pyEq p.2 q.2 && pyEqDict ps qs
  | _, _ => false

end

/-- `dict.get(k, d)`: value of the last binding of `k`, or the default. -/
def dictGet (kvs : List (String × PyVal)) (k : String) (d : PyVal) : PyVal :=
  match kvs.reverse.find? (fun p => p.1 == k) with
  | Option.some p => p.2
  | Option.none => d

/-- JSON string escaping as performed by `json.dumps` on the characters we
model (quote and backslash get escaped; other characters pass through). -/
def jsonEscChar (c : Char) : List Char :=
  if c = '"' then ['\\', '"']
  else if c = '\\' then ['\\', '\\']
  else if c = nlc then ['\\', 'n']
  else [c]

mutual

/-- Model of Python `json.dumps` with its default separators
(`", "` between items, `": "` after keys). -/
def jsonDumpsL : PyVal → List Char
  | .str s => '"' :: (s.toList.flatMap jsonEscChar) ++ ['"']
  | .int n => (toString n).toList
  | .bool b => if b then "true".toList else "false".toList
  | .none => "null".toList
  | .list xs => '[' :: jsonDumpsList xs ++ [']']
  | .dict kvs => lb :: jsonDumpsDict kvs ++ [rb]

/-- `json.dumps` of the elements of a list, comma separated. -/
def jsonDumpsList : List PyVal → List Char
  | [] => []
  | [x] => jsonDumpsL x
  | x :: y :: xs => jsonDumpsL x ++ ',' :: ' ' :: jsonDumpsList (y :: xs)

/-- `json.dumps` of the members of a dict, comma separated. -/
def jsonDumpsDict : List (String × PyVal) → List Char
  | [] => []
  | [p] => '"' :: (p.1.toList.flatMap jsonEscChar) ++ '"' :: ':' :: ' ' :: jsonDumpsL p.2
  | p :: q :: kvs =>
    '"' :: (p.1.toList.flatMap jsonEscChar) ++ '"' :: ':' :: ' ' :: jsonDumpsL p.2
      ++ ',' :: ' ' :: jsonDumpsDict (q :: kvs)

end

/-- `json.dumps` returning a `String`. -/
def jsonDumps (v : PyVal) : String := String.mk (jsonDumpsL v)

mutual

/-- Model of Python `repr`/`str()` on these values (what `csv.DictWriter`
writes for a non-string cell): strings get single quotes, dicts and lists
their Python literal form, `None`/`True`/`False` their Python names. -/
def pyRepr : PyVal → List Char
  | .str s => squote :: s.toList ++ [squote]
  | .int n => (toString n).toList
  | .bool b => if b then "True".toList else "False".toList
  | .none => "None".toList
  | .list xs => '[' :: pyReprList xs ++ [']']
  | .dict kvs => lb :: pyReprDict kvs ++ [rb]

/-- `repr` of list elements, comma separated. -/
def pyReprList : List PyVal → List Char
  | [] => []
  | [x] => pyRepr x
  | x :: y :: xs => pyRepr x ++ ',' :: ' ' :: pyReprList (y :: xs)

/-- `repr` of dict members, comma separated. -/
def pyReprDict : List (String × PyVal) → List Char
  | [] => []
  | [p] => squote :: p.1.toList ++ squote :: ':' :: ' ' :: pyRepr p.2
  | p :: q :: kvs =>
    squote :: p.1.toList ++ squote :: ':' :: ' ' :: pyRepr p.2
      ++ ',' :: ' ' :: pyReprDict (q :: kvs)

end

/-- JSON whitespace as accepted by Python `json.loads` (space, tab,
newline, carriage return). -/
def isJsonWs (c : Char) : Bool :=
  c = ' ' || c = nlc || c = Char.ofNat 9 || c = Char.ofNat 13

/-- Drop leading JSON whitespace. -/
def skipWs (cs : List Char) : List Char := cs.dropWhile isJsonWs

/-- Decoding of a character following a backslash in a JSON string literal
(`\u` escapes are outside the model; none of the program's data uses them). -/
def escDecode (e : Char) : Option Char :=
  if e = '"' then Option.some '"'
  else if e = '\\' then Option.some '\\'
  else if e = '/' then Option.some '/'
  else if e = 'n' then Option.some nlc
  else if e = 't' then Option.some (Char.ofNat 9)
  else if e = 'r' then Option.some (Char.ofNat 13)
  else if e = 'b' then Option.some (Char.ofNat 8)
  else if e = 'f' then Option.some (Char.ofNat 12)
  else Option.none

/-- Parse the body of a JSON string literal (the opening quote already
consumed): returns the decoded characters and the remainder after the
closing quote.  Raw control characters are rejected, as in strict
`json.loads`. -/
def parseStrLit : List Char → Option (List Char × List Char)
  | [] => Option.none
  | c :: rest =>
    if c = '"' then Option.some ([], rest)
    else if c = '\\' then
      match rest with
      | [] => Option.none
      | e :: rest2 =>
        match escDecode e with
        | Option.some ec => (parseStrLit rest2).map (fun p => (ec :: p.1, p.2))
        | Option.none => Option.none
    else if c.toNat < 32 then Option.none
    else (parseStrLit rest).map (fun p => (c :: p.1, p.2))

/-- Numeric value of a list of decimal digits. -/
def digitsToNat (ds : List Char) : Nat :=
  ds.foldl (fun a c => a * 10 + (c.toNat - 48)) 0

/-- Parse a run of decimal digits. -/
def parseDigits (cs : List Char) : Option (Nat × List Char) :=
  let ds := cs.takeWhile (fun c => c.isDigit)
  if ds.isEmpty then Option.none
  else Option.some (digitsToNat ds, cs.drop ds.length)

/-- Parse a JSON integer token (optional minus sign followed by digits). -/
def parseIntTok (cs : List Char) : Option (Int × List Char) :=
  match cs with
  | [] => Option.none
  | c :: rest =>
    if c = '-' then (parseDigits rest).map (fun p => (-(p.1 : Int), p.2))
    else (parseDigits cs).map (fun p => ((p.1 : Int), p.2))

/-- Consume an expected literal character sequence. -/
def expectList (pat cs : List Char) : Option (List Char) :=
  if pat.isPrefixOf cs then Option.some (cs.drop pat.length) else Option.none

/-- Parser mode: a whole value, object members (just after the opening
brace, where the closing brace is allowed, or after a comma, where a key is
required), or array elements (likewise). -/
inductive PM where
  | val
  | memFirst (acc : List (String × PyVal))
  | memKey (acc : List (String × PyVal))
  | elemFirst (acc : List PyVal)
  | elemNext (acc : List PyVal)

/-- Fuel-indexed recursive-descent JSON parser modelling `json.loads`
(restricted to the integer-only numbers, non-`\u` escapes and strict-mode
behaviour the program relies on).  Returns the parsed value and the
unconsumed remainder. -/
def pj : Nat → PM → List Char → Option (PyVal × List Char)
  | 0, _, _ => Option.none
  | f + 1, PM.val, cs0 =>
    match skipWs cs0 with
    | [] => Option.none
    | c :: rest =>
      if c = '"' then
        (parseStrLit rest).map (fun p => (PyVal.str (String.mk p.1), p.2))
      else if c = lb then pj f (PM.memFirst []) rest
      else if c = '[' then pj f (PM.elemFirst []) rest
      else if c = 't' then
        (expectList "rue".toList rest).map (fun r => (PyVal.bool true, r))
      else if c = 'f' then
        (expectList "alse".toList rest).map (fun r => (PyVal.bool false, r))
      else if c = 'n' then
        (expectList "ull".toList rest).map (fun r => (PyVal.none, r))
      else if c = '-' || c.isDigit then
        (parseIntTok (c :: rest)).map (fun p => (PyVal.int p.1, p.2))
      else Option.none
  | f + 1, PM.memFirst acc, cs0 =>
    match skipWs cs0 with
    | [] => Option.none
    | c :: rest =>
      if c = rb then Option.some (PyVal.dict acc.reverse, rest)
      else pj f (PM.memKey acc) cs0
  | f + 1, PM.memKey acc, cs0 =>
    match skipWs cs0 with
    | [] => Option.none
    | c :: rest =>
      if c = '"' then
        match parseStrLit rest with
        | Option.none => Option.none
        | Option.some (k, rest1) =>
          match skipWs rest1 with
          | [] => Option.none
          | c2 :: rest2 =>
            if c2 = ':' then
              match pj f PM.val rest2 with
              | Option.none => Option.none
              | Option.some (v, rest3) =>
                match skipWs rest3 with
                | [] => Option.none
                | c3 :: rest4 =>
                  if c3 = ',' then
                    pj f (PM.memKey ((String.mk k, v) :: acc)) rest4
                  else if c3 = rb then
                    Option.some (PyVal.dict ((String.mk k, v) :: acc).reverse, rest4)
                  else Option.none
            else Option.none
      else Option.none
  | f + 1, PM.elemFirst acc, cs0 =>
    match skipWs cs0 with
    | [] => Option.none
    | c :: rest =>
      if c = ']' then Option.some (PyVal.list acc.reverse, rest)
      else pj f (PM.elemNext acc) cs0
  | f + 1, PM.elemNext acc, cs0 =>
    match pj f PM.val cs0 with
    | Option.none => Option.none
    | Option.some (v, rest) =>
      match skipWs rest with
      | [] => Option.none
      | c :: rest2 =>
        if c = ',' then pj f (PM.elemNext (v :: acc)) rest2
        else if c = ']' then Option.some (PyVal.list (v :: acc).reverse, rest2)
        else Option.none

/-- Model of `json.loads`: parse one JSON value and require only trailing
whitespace after it (Python raises `Extra data` otherwise).  The fuel is an
upper bound on parser steps, each of which consumes input. -/
def jsonLoads (cs : List Char) : Option PyVal :=
  match pj (cs.length * 2 + 8) PM.val cs with
  | Option.some (v, rest) =>
    if skipWs rest = [] then Option.some v else Option.none
  | Option.none => Option.none

/-- What `csv.DictWriter.writerow` puts in a cell for a given Python value:
strings verbatim, `None` as the empty cell, anything else via `str()`. -/
def pyCsvStr : PyVal → String
  | .str s => s
  | .none => ""
  | .int n => toString n
  | .bool b => if b then "True" else "False"
  | v => String.mk (pyRepr v)

end TH

namespace TH

/-- Lines of the completion that survive cleaning: model of
`[line for line in lines if (3 * chr(96)) not in line]` followed by the
newline join in `clean_and_parse_response` (`app.py` lines 209-212). -/
def stripFences (cs : List Char) : List Char :=
  joinNL ((splitNL cs).filter (fun l => !(hasFence l)))

/-- The balanced-brace scan of `clean_and_parse_response` (`app.py` lines
223-235), applied to the suffix of the cleaned text that starts at the
first opening brace: every character is folded into the accumulator, the
depth rises at every opening brace and falls at every closing brace, and
the segment ends just after the brace that returns the depth to zero.  If
the scan ends unbalanced, `end_idx` keeps its initial value `start_idx` and
the extracted segment is empty. -/
def braceSeg : List Char → Int → List Char → List Char
  | [], _, _ => []
  | c :: rest, d, acc =>
    if c = lb then braceSeg rest (d + 1) (c :: acc)
    else if c = rb then
      if d - 1 = 0 then (c :: acc).reverse
      else braceSeg rest (d - 1) (c :: acc)
    else braceSeg rest d (c :: acc)

/-- The parsing phase of `clean_and_parse_response` on the already-cleaned
text: direct `json.loads`, then the balanced-brace fallback.  `Option.none`
models the `json.JSONDecodeError` that the function raises on failure. -/
def parseCleaned (cleaned : List Char) : Option PyVal :=
  match jsonLoads cleaned with
  | Option.some v => Option.some v
  | Option.none =>
    match cleaned.dropWhile (fun c => !(c = lb)) with
    | [] => Option.none
    | tl => jsonLoads (braceSeg tl 0 [])

/-- `clean_and_parse_response` (`app.py` lines 206-242): strip fence lines,
then parse. -/
def clean_and_parse_response (cs : List Char) : Option PyVal :=
  parseCleaned (stripFences cs)

/-- The hard-coded fallback `doctor_notes` record (`app.py` lines 260-267). -/
def defaultDoctorNotes : PyVal :=
  PyVal.dict
    [ ("subjective", PyVal.str "Patient reports symptoms as transcribed")
    , ("objective", PyVal.str "Physical examination findings noted")
    , ("assessment", PyVal.str "Clinical assessment pending review")
    , ("plan", PyVal.str "Treatment plan to be determined")
    , ("medications", PyVal.list [])
    , ("followUp", PyVal.str "Follow-up as needed") ]

/-- The hard-coded fallback `patient_summary` record (`app.py` lines
268-273). -/
def defaultPatientSummary : PyVal :=
  PyVal.dict
    [ ("summary", PyVal.str "Please refer to your clinical notes for details")
    , ("keyPoints", PyVal.list [PyVal.str "Consultation completed"])
    , ("nextSteps", PyVal.list [PyVal.str "Follow up with your healthcare provider"])
    , ("medications", PyVal.list []) ]

/-- Outcome of the response-extraction step of `generate_notes` (`app.py`
lines 244-278) on a raw completion string: either a pair of records
(doctor notes, patient summary) answered with HTTP 200, or an uncaught
`AttributeError` (the `.get` call on a parsed non-dict value), which falls
through to the outer handler and becomes HTTP 500. -/
inductive GenResult where
  | ok (doctorNotes patientSummary : PyVal)
  | attrError

/-- The response-extraction step of `generate_notes`: parse via
`clean_and_parse_response`; on success take the two sub-records with `{}`
as the `.get` default; on `JSONDecodeError` substitute both hard-coded
fallback records. -/
def extractNarrative (raw : List Char) : GenResult :=
  match clean_and_parse_response raw with
  | Option.some (PyVal.dict kvs) =>
    GenResult.ok (dictGet kvs "doctorNotes" (PyVal.dict []))
      (dictGet kvs "patientSummary" (PyVal.dict []))
  | Option.some _ => GenResult.attrError
  | Option.none => GenResult.ok defaultDoctorNotes defaultPatientSummary

/-- HTTP status of the `generate-notes` response for a given extraction
outcome (`app.py` lines 275-281). -/
def genStatus : GenResult → Nat
  | GenResult.ok _ _ => 200
  | GenResult.attrError => 500

end TH

namespace TH

/-- Oracle environment for one `POST /api/transcribe` request (`app.py`
lines 26-147): whether the multipart `audio` field is present, the byte
size of the saved scratch file, and the outcomes of the external
collaborators — direct whisper transcription of the original file, the
ffmpeg subprocess (`Except.error` carries its stderr text), whether the
converted output file exists afterwards, and whisper on the converted
file. -/
structure TEnv where
  hasAudio : Bool
  fileSize : Nat
  direct : Except String String
  ffmpeg : Except String Unit
  convertedExists : Bool
  converted : Except String String

/-- Body of the `transcribe` HTTP response: transcription text or an
`error` message. -/
inductive TResp where
  | ok (text : String)
  | err (msg : String)
deriving DecidableEq

/-- Observable outcome of one `transcribe` request: HTTP status and body,
whether ffmpeg was invoked, whether whisper was invoked on the original
file, and whether the original scratch file / the converted intermediate
file remain on disk afterwards. -/
structure TOut where
  status : Nat
  resp : TResp
  ffmpegCalled : Bool
  directCalled : Bool
  tempRemains : Bool
  convertedRemains : Bool
deriving DecidableEq

/-- `app.py` line 31. -/
def noAudioMsg : String := "No audio file provided"

/-- `app.py` line 112. -/
def convFailMsg : String :=
  "Audio conversion failed. Please check that your audio recording is valid."

/-- `app.py` line 118. -/
def unableMsg : String :=
  "Unable to process audio file. Please try recording again with a different format."

/-- `transcribe_audio` (`app.py` lines 26-147).  The zero-size check raises
`ValueError` before whisper runs; every direct-attempt exception is caught
by the `except` of line 70 and routed into the ffmpeg fallback.  A
`CalledProcessError` from ffmpeg yields the fixed conversion-failure
message; any other fallback exception (missing converted file, whisper
failing on the converted file) yields the fixed processing-failure
message.  The `finally` of line 134 always removes the original scratch
file; the converted file is removed only on the line-103 success path. -/
def transcribe_audio (env : TEnv) : TOut :=
  if env.hasAudio = false then
    ⟨400, TResp.err noAudioMsg, false, false, false, false⟩
  else
    let attempt : Except String String :=
      if env.fileSize = 0 then Except.error "Audio file is empty" else env.direct
    let dc : Bool := env.fileSize != 0
    match attempt with
    | Except.ok t => ⟨200, TResp.ok t, false, dc, false, false⟩
    | Except.error _ =>
      match env.ffmpeg with
      | Except.error _ => ⟨500, TResp.err convFailMsg, true, dc, false, false⟩
      | Except.ok _ =>
        if env.convertedExists then
          match env.converted with
          | Except.ok t => ⟨200, TResp.ok t, true, dc, false, false⟩
          | Except.error _ => ⟨500, TResp.err unableMsg, true, dc, false, true⟩
        else ⟨500, TResp.err unableMsg, true, dc, false, false⟩

end TH

namespace TH

/-- One data row of `recordings.csv`, in the fixed field order of
`database.py` lines 10-13.  Every cell is text. -/
structure Row where
  id : String
  patient_name : String
  doctor_name : String
  date : String
  duration : String
  transcription : String
  doctor_notes : String
  patient_summary : String
  status : String
deriving DecidableEq

/-- An in-memory recording dict as the Python code handles it after a
read or while writing: field values are runtime values (strings straight
from the CSV reader, parsed objects for the two JSON columns, or the raw
caller-supplied values inside `save_recording`). -/
structure MemRec where
  id : PyVal
  patient_name : PyVal
  doctor_name : PyVal
  date : PyVal
  duration : PyVal
  transcription : PyVal
  doctor_notes : PyVal
  patient_summary : PyVal
  status : PyVal

/-- The backing CSV file: its data rows, or an unreadable/corrupt state in
which every `open(...)` for reading raises. -/
inductive FileState where
  | ok (rows : List Row)
  | unreadable

/-- The JSON-column restore of `database.py` lines 87-88/103-104:
`json.loads(cell) if cell else {}` — `Option.none` models the raised
`JSONDecodeError`. -/
def parseNotes (s : String) : Option PyVal :=
  if s = "" then Option.some (PyVal.dict []) else jsonLoads s.toList

/-- Turn one CSV row into the recording dict produced by the readers:
scalar cells stay strings, the two JSON columns are parsed. -/
def parseRow (r : Row) : Option MemRec :=
  match parseNotes r.doctor_notes, parseNotes r.patient_summary with
  | Option.some dn, Option.some ps =>
    Option.some
      ⟨PyVal.str r.id, PyVal.str r.patient_name, PyVal.str r.doctor_name,
        PyVal.str r.date, PyVal.str r.duration, PyVal.str r.transcription,
        dn, ps, PyVal.str r.status⟩
  | _, _ => Option.none

/-- The row loop of `get_all_recordings`: the whole result is discarded if
any row raises. -/
def rowsParse : List Row → Option (List MemRec)
  | [] => Option.some []
  | r :: rest =>
    match parseRow r, rowsParse rest with
    | Option.some m, Option.some ms => Option.some (m :: ms)
    | _, _ => Option.none

/-- `CSVDatabase.get_all_recordings` (`database.py` lines 95-109): any
exception — unreadable file or a JSON column that fails to parse — is
swallowed and an empty list returned. -/
def get_all_recordings : FileState → List MemRec
  | FileState.unreadable => []
  | FileState.ok rows => (rowsParse rows).getD []

/-- `CSVDatabase.get_recording` (`database.py` lines 79-93): scan for the
first row whose `id` cell equals the argument, parse its JSON columns;
any exception is swallowed and `None` returned. -/
def get_recording : FileState → String → Option MemRec
  | FileState.unreadable, _ => Option.none
  | FileState.ok rows, rid =>
    match rows.find? (fun r => r.id == rid) with
    | Option.some r => parseRow r
    | Option.none => Option.none

/-- The caller-supplied JSON body of `POST /api/recordings`
(camelCase keys; `Option.none` models an absent key, for which
`recording_data.get` supplies the default). -/
structure RecordingData where
  id : Option PyVal
  patientName : Option PyVal
  doctorName : Option PyVal
  date : Option PyVal
  duration : Option PyVal
  transcription : Option PyVal
  doctorNotes : Option PyVal
  patientSummary : Option PyVal
  status : Option PyVal

/-- The `csv_row` dict built by `save_recording` (`database.py` lines
27-37): raw values for the scalar fields (with the documented defaults,
`now` standing for `datetime.now().isoformat()`), `json.dumps` text for
the two JSON columns. -/
def csvRowOf (d : RecordingData) (now : String) : MemRec :=
  ⟨d.id.getD PyVal.none,
    d.patientName.getD PyVal.none,
    d.doctorName.getD PyVal.none,
    d.date.getD (PyVal.str now),
    d.duration.getD (PyVal.int 0),
    d.transcription.getD (PyVal.str ""),
    PyVal.str (jsonDumps (d.doctorNotes.getD (PyVal.dict []))),
    PyVal.str (jsonDumps (d.patientSummary.getD (PyVal.dict []))),
    d.status.getD (PyVal.str "completed")⟩

/-- `csv.DictWriter.writerow` on an in-memory dict: every value is
stringified with `str()` (`None` becomes the empty cell). -/
def writeRowOf (m : MemRec) : Row :=
  ⟨pyCsvStr m.id, pyCsvStr m.patient_name, pyCsvStr m.doctor_name,
    pyCsvStr m.date, pyCsvStr m.duration, pyCsvStr m.transcription,
    pyCsvStr m.doctor_notes, pyCsvStr m.patient_summary, pyCsvStr m.status⟩

/-- The replace-and-break loop of `_update_recording` (`database.py` lines
63-66): the first entry whose `id` equals the new row's `id` is replaced. -/
def replaceFirst : List MemRec → MemRec → List MemRec
  | [], _ => []
  | r :: rest, nr =>
    if pyEq r.id nr.id then nr :: rest else r :: replaceFirst rest nr

/-- `CSVDatabase._update_recording` (`database.py` lines 57-77): reread all
recordings, replace the matching one, rewrite the whole file through
`csv.DictWriter`. -/
def _update_recording (fs : FileState) (updated : MemRec) : Bool × FileState :=
  let recs := get_all_recordings fs
  (true, FileState.ok ((replaceFirst recs updated).map writeRowOf))

/-- `CSVDatabase.save_recording` (`database.py` lines 23-55): build the
`csv_row`, then update in place when the id is already present in the
(readable part of the) store, else append one row.  Appending to an
unreadable file raises, caught as `False`. -/
def save_recording (fs : FileState) (d : RecordingData) (now : String) :
    Bool × FileState :=
  let csv_row := csvRowOf d now
  let existing := get_all_recordings fs
  if existing.any (fun r => pyEq csv_row.id r.id) then
    _update_recording fs csv_row
  else
    match fs with
    | FileState.ok rows => (true, FileState.ok (rows ++ [writeRowOf csv_row]))
    | FileState.unreadable => (false, FileState.unreadable)

/-- The per-recording `csv_row` rebuilt by `delete_recording`
(`database.py` lines 122-134): scalars written back via `str()`, the two
JSON columns re-serialized with `json.dumps`. -/
def deleteWriteRow (m : MemRec) : Row :=
  ⟨pyCsvStr m.id, pyCsvStr m.patient_name, pyCsvStr m.doctor_name,
    pyCsvStr m.date, pyCsvStr m.duration, pyCsvStr m.transcription,
    jsonDumps m.doctor_notes, jsonDumps m.patient_summary, pyCsvStr m.status⟩

/-- `CSVDatabase.delete_recording` (`database.py` lines 111-139): keep
every recording whose `id` differs from the argument and rewrite the file;
returns `True` whether or not anything matched. -/
def delete_recording (fs : FileState) (rid : String) : Bool × FileState :=
  let recs := get_all_recordings fs
  let remaining := recs.filter (fun r => !(pyEq r.id (PyVal.str rid)))
  (true, FileState.ok (remaining.map deleteWriteRow))

/-- A response of the recordings HTTP endpoints (`app.py` lines 283-334). -/
inductive ApiResp where
  | recordings (recs : List MemRec)
  | recording (rec : MemRec)
  | notFound
  | delOk
  | err500 (msg : String)

/-- `GET /api/recordings` (`app.py` lines 312-320): `db.get_all_recordings`
never raises, so the endpoint always answers 200 with the list. -/
def api_get_all_recordings (fs : FileState) : ApiResp :=
  ApiResp.recordings (get_all_recordings fs)

/-- `GET /api/recordings/<id>` (`app.py` lines 298-310): 200 with the
record when `db.get_recording` returns one, else 404. -/
def api_get_recording (fs : FileState) (rid : String) : ApiResp :=
  match get_recording fs rid with
  | Option.some r => ApiResp.recording r
  | Option.none => ApiResp.notFound

/-- `DELETE /api/recordings/<id>` (`app.py` lines 322-334): 200 success
when `db.delete_recording` returns `True`, else 500. -/
def api_delete_recording (fs : FileState) (rid : String) : ApiResp × FileState :=
  let r := delete_recording fs rid
  ((if r.1 then ApiResp.delOk else ApiResp.err500 "Failed to delete recording"), r.2)

/-- Concrete payload used by the `c10_read_back_types` witness. -/
def wPayload : RecordingData :=
  ⟨Option.some (PyVal.str "r1"), Option.some (PyVal.str "Pat"),
    Option.some (PyVal.str "Doc"), Option.some (PyVal.str "2025-01-01"),
    Option.none, Option.some (PyVal.str "hello"),
    Option.some (PyVal.dict [("plan", PyVal.str "rest")]),
    Option.none, Option.none⟩

/-- HTTP status code of an `ApiResp`. -/
def apiStatus : ApiResp → Nat
  | ApiResp.recordings _ => 200
  | ApiResp.recording _ => 200
  | ApiResp.notFound => 404
  | ApiResp.delOk => 200
  | ApiResp.err500 _ => 500

end TH

namespace TH

theorem splitNL_ne_nil (l : List Char) : splitNL l ≠ [] := by
  induction l with
  | nil => simp [splitNL]
  | cons c rest ih =>
    by_cases h : c = nlc
    · simp [splitNL, h]
    · simp only [splitNL, h, if_false]
      cases hr : splitNL rest <;> simp

theorem splitNL_append (a b : List Char) :
    splitNL (a ++ nlc :: b) = splitNL a ++ splitNL b := by
  induction a with
  | nil => simp [splitNL]
  | cons c a ih =>
    by_cases h : c = nlc
    · subst h
      simp [splitNL, ih]
    · cases hr : splitNL a with
      | nil => exact absurd hr (splitNL_ne_nil a)
      | cons l ls =>
        simp only [List.cons_append, splitNL, h, if_false]
        have ih' : splitNL (a.append (nlc :: b)) = splitNL a ++ splitNL b := ih
        rw [ih', hr]
        simp

end TH

namespace TH

/-- Claim C8: extracting from a completion that wraps a JSON object text in
code-fence lines (` ```json ` before, ` ``` ` after) yields exactly the same
narrative as extracting from the bare text, because every line containing a
fence marker is stripped before parsing. -/
theorem c8_fence_stripping (J : List Char) :
    extractNarrative ("```json".toList ++ nlc :: (J ++ nlc :: "```".toList)) =
      extractNarrative J := by
  have h1 : splitNL ("```json".toList) = ["```json".toList] := rfl
  have h2 : splitNL ("```".toList) = ["```".toList] := rfl
  have h3 : hasFence ("```json".toList) = true := rfl
  have h4 : hasFence ("```".toList) = true := rfl
  have hstrip :
      stripFences ("```json".toList ++ nlc :: (J ++ nlc :: "```".toList)) =
        stripFences J := by
    unfold stripFences
    rw [splitNL_append, splitNL_append, h1, h2]
    rw [List.filter_append, List.filter_append]
    have e1 : List.filter (fun l => !hasFence l) ["```json".toList] = [] := rfl
    have e2 : List.filter (fun l => !hasFence l) ["```".toList] = [] := rfl
    rw [e1, e2]
    simp
  unfold extractNarrative clean_and_parse_response
  rw [hstrip]

/-- Claim C1, counterexample: on a completion whose `doctorNotes` sub-object
is syntactically valid but whose `patientSummary` fragment is broken, the
whole parse fails (direct parse and balanced-brace rescue alike), so
`generate_notes` substitutes BOTH hard-coded defaults at once — the real
`doctorNotes` values (here `\x7b"plan": "rest"\x7d`) are not returned. -/
theorem c1_counterexample :
    extractNarrative
        ("\x7b\"doctorNotes\": \x7b\"plan\": \"rest\"\x7d, \"patientSummary\": \x7d".toList)
      = GenResult.ok defaultDoctorNotes defaultPatientSummary
    ∧ defaultDoctorNotes ≠ PyVal.dict [("plan", PyVal.str "rest")] := by
  constructor
  · rfl
  · intro h
    exact absurd (congrArg jsonDumps h) (by decide)

/-- Claim C1 as amended: default substitution is all-or-nothing, not
per-sub-record — whenever `clean_and_parse_response` fails, the extraction
step returns the hard-coded defaults for BOTH sub-records. -/
theorem c1_amended (raw : List Char)
    (h : clean_and_parse_response raw = Option.none) :
    extractNarrative raw = GenResult.ok defaultDoctorNotes defaultPatientSummary := by
  simp [extractNarrative, h]

/-- Witness for `c1_amended` at a concrete unparseable completion. -/
theorem c1_amended_witness :
    extractNarrative ("totally not json".toList)
      = GenResult.ok defaultDoctorNotes defaultPatientSummary :=
  c1_amended ("totally not json".toList) rfl

/-- Claim C5, counterexample: a transport-successful completion consisting
of the single JSON value `42` parses fine, then `.get` on the resulting
non-dict raises `AttributeError`, which escapes to the generic handler:
the caller gets HTTP 500, not a 200 with defaulted records. -/
theorem c5_counterexample :
    extractNarrative ("42".toList) = GenResult.attrError ∧
    genStatus (extractNarrative ("42".toList)) = 500 := ⟨rfl, rfl⟩

/-- Claim C5 as amended: for every raw completion the caller receives
HTTP 200 with both records (hard-coded defaults when parsing fails) —
except when the completion parses to a non-object JSON value, in which
case the attribute access raises and the endpoint answers 500. -/
theorem c5_amended (raw : List Char) :
    (∃ d p, extractNarrative raw = GenResult.ok d p ∧
      genStatus (extractNarrative raw) = 200) ∨
    (∃ v, clean_and_parse_response raw = Option.some v ∧
      (∀ kvs, v ≠ PyVal.dict kvs) ∧
      extractNarrative raw = GenResult.attrError) := by
  cases hc : clean_and_parse_response raw with
  | none =>
    left
    refine ⟨defaultDoctorNotes, defaultPatientSummary, ?_, ?_⟩ <;>
      simp [extractNarrative, hc, genStatus]
  | some v =>
    cases v with
    | dict kvs =>
      left
      refine ⟨dictGet kvs "doctorNotes" (PyVal.dict []),
        dictGet kvs "patientSummary" (PyVal.dict []), ?_, ?_⟩ <;>
        simp [extractNarrative, hc, genStatus]
    | str s =>
      right
      refine ⟨PyVal.str s, rfl, ?_, ?_⟩
      · intro kvs h
        injection h
      · simp [extractNarrative, hc]
    | int n =>
      right
      refine ⟨PyVal.int n, rfl, ?_, ?_⟩
      · intro kvs h
        injection h
      · simp [extractNarrative, hc]
    | bool b =>
      right
      refine ⟨PyVal.bool b, rfl, ?_, ?_⟩
      · intro kvs h
        injection h
      · simp [extractNarrative, hc]
    | none =>
      right
      refine ⟨PyVal.none, rfl, ?_, ?_⟩
      · intro kvs h
        injection h
      · simp [extractNarrative, hc]
    | list xs =>
      right
      refine ⟨PyVal.list xs, rfl, ?_, ?_⟩
      · intro kvs h
        injection h
      · simp [extractNarrative, hc]

end TH

namespace TH

/-- Claim C2, counterexample: on an upload whose scratch file has zero
bytes, the internal `ValueError` is swallowed by the fallback handler and
ffmpeg IS invoked; the reported error is the conversion-stage message, not
a distinct empty-file error. -/
theorem c2_counterexample :
    (transcribe_audio ⟨true, 0, Except.error "", Except.error "x", false,
        Except.error ""⟩).ffmpegCalled = true ∧
    (transcribe_audio ⟨true, 0, Except.error "", Except.error "x", false,
        Except.error ""⟩).resp = TResp.err convFailMsg := by
  decide

/-- Claim C2 as amended: a zero-byte scratch file skips direct whisper
transcription (the empty-file `ValueError` is raised first), but the error
is caught by the generic fallback handler, so the transcoding utility is
always invoked for that request rather than an empty-file error being
reported immediately. -/
theorem c2_amended (env : TEnv) (h1 : env.hasAudio = true)
    (h2 : env.fileSize = 0) :
    (transcribe_audio env).directCalled = false ∧
    (transcribe_audio env).ffmpegCalled = true := by
  rcases env with ⟨ha, fs, dir, ff, ce, cv⟩
  simp only at h1 h2
  subst h1
  subst h2
  cases ff with
  | error e => simp [transcribe_audio]
  | ok u => cases ce <;> cases cv <;> simp [transcribe_audio]

/-- Witness for `c2_amended` at a concrete environment. -/
theorem c2_amended_witness :
    (transcribe_audio ⟨true, 0, Except.error "e", Except.ok (), true,
        Except.ok "t"⟩).directCalled = false ∧
    (transcribe_audio ⟨true, 0, Except.error "e", Except.ok (), true,
        Except.ok "t"⟩).ffmpegCalled = true :=
  c2_amended ⟨true, 0, Except.error "e", Except.ok (), true, Except.ok "t"⟩ rfl rfl

/-- Claim C3, counterexample: when direct transcription fails, ffmpeg
converts successfully, and whisper then fails on the converted file, the
request exits through the line-115 handler with HTTP 500 while the
converted intermediate file is still on disk — a residual scratch file
remains. -/
theorem c3_counterexample :
    (transcribe_audio ⟨true, 5, Except.error "fail", Except.ok (), true,
        Except.error "wfail"⟩).convertedRemains = true ∧
    (transcribe_audio ⟨true, 5, Except.error "fail", Except.ok (), true,
        Except.error "wfail"⟩).status = 500 := by
  decide

/-- Claim C3 as amended: the original temp file is removed on every exit
path (the `finally` of line 134), but the converted intermediate file is
removed only on the success path — it remains on disk exactly when the
fallback conversion succeeded, the converted file existed, and whisper
failed on it. -/
theorem c3_amended (env : TEnv) :
    (transcribe_audio env).tempRemains = false ∧
    ((transcribe_audio env).convertedRemains = true ↔
      (env.hasAudio = true ∧
        (env.fileSize = 0 ∨ (∃ e, env.direct = Except.error e)) ∧
        env.ffmpeg = Except.ok () ∧ env.convertedExists = true ∧
        (∃ e, env.converted = Except.error e))) := by
  rcases env with ⟨ha, fs, dir, ff, ce, cv⟩
  cases ha <;> by_cases hfs : fs = 0 <;> cases dir <;> cases ff <;>
    cases ce <;> cases cv <;> simp [transcribe_audio, hfs]

/-- Claim C4, counterexample: when ffmpeg exits non-zero with diagnostic
text on stderr, the 500 response carries the fixed generic message, which
does not contain the diagnostic text. -/
theorem c4_counterexample :
    (transcribe_audio ⟨true, 3, Except.error "engine",
        Except.error "UNIQUEDIAG", false, Except.ok ""⟩).resp
      = TResp.err convFailMsg ∧
    (transcribe_audio ⟨true, 3, Except.error "engine",
        Except.error "UNIQUEDIAG", false, Except.ok ""⟩).status = 500 ∧
    hasSub convFailMsg.toList ("UNIQUEDIAG".toList) = false := by
  decide

/-- Claim C4 as amended: whenever the transcoding utility exits non-zero,
the pipeline returns a dedicated conversion-failed HTTP 500 whose message
is the fixed generic text (the utility's stderr is only printed to the
server log, never surfaced in the response). -/
theorem c4_amended (env : TEnv) (st : String) (h1 : env.hasAudio = true)
    (h2 : env.fileSize = 0 ∨ (∃ e, env.direct = Except.error e))
    (h3 : env.ffmpeg = Except.error st) :
    (transcribe_audio env).status = 500 ∧
    (transcribe_audio env).resp = TResp.err convFailMsg := by
  rcases env with ⟨ha, fs, dir, ff, ce, cv⟩
  simp only at h1 h2 h3
  subst h1
  subst h3
  rcases h2 with h2 | ⟨e, h2⟩
  · subst h2
    simp [transcribe_audio]
  · subst h2
    by_cases hfs : fs = 0 <;> simp [transcribe_audio, hfs]

/-- Witness for `c4_amended` at a concrete environment. -/
theorem c4_amended_witness :
    (transcribe_audio ⟨true, 4, Except.error "nope", Except.error "diagtext",
        true, Except.ok "t"⟩).status = 500 ∧
    (transcribe_audio ⟨true, 4, Except.error "nope", Except.error "diagtext",
        true, Except.ok "t"⟩).resp = TResp.err convFailMsg :=
  c4_amended ⟨true, 4, Except.error "nope", Except.error "diagtext", true,
    Except.ok "t"⟩ "diagtext" rfl (Or.inr ⟨"nope", rfl⟩) rfl

end TH

namespace TH

/-- Claim C6, counterexample: with an unreadable backing file,
`GET /api/recordings` answers 200 with an empty list and
`GET /api/recordings/<id>` answers 404 — the store read failure is
swallowed by the database layer, never surfaced as a 500. -/
theorem c6_counterexample :
    api_get_all_recordings FileState.unreadable = ApiResp.recordings [] ∧
    apiStatus (api_get_all_recordings FileState.unreadable) = 200 ∧
    api_get_recording FileState.unreadable "rec-1" = ApiResp.notFound ∧
    apiStatus (api_get_recording FileState.unreadable "rec-1") = 404 :=
  ⟨rfl, rfl, rfl, rfl⟩

/-- Claim C6 as amended: a failed read of the backing record file is
swallowed inside `CSVDatabase` — `GET /api/recordings` reports it as an
empty 200 success (as it does for every file state) and
`GET /api/recordings/<id>` reports it as a 404, never as a 500. -/
theorem c6_amended (rid : String) :
    api_get_all_recordings FileState.unreadable = ApiResp.recordings [] ∧
    api_get_recording FileState.unreadable rid = ApiResp.notFound ∧
    (∀ fs, apiStatus (api_get_all_recordings fs) = 200) :=
  ⟨rfl, rfl, fun _ => rfl⟩

/-- Claim C9: `delete_recording` returns `True` for every file state and
every id — matching or not — so `DELETE /api/recordings/<id>` always
answers 200 success; deleting a nonexistent id is indistinguishable from
deleting an existing one at the HTTP interface. -/
theorem c9_delete_always_succeeds (fs : FileState) (rid : String) :
    (delete_recording fs rid).1 = true ∧
    (api_delete_recording fs rid).1 = ApiResp.delOk ∧
    apiStatus (api_delete_recording fs rid).1 = 200 :=
  ⟨rfl, rfl, rfl⟩

theorem parseRow_id (r : Row) (m : MemRec) (h : parseRow r = Option.some m) :
    m.id = PyVal.str r.id := by
  unfold parseRow at h
  cases h1 : parseNotes r.doctor_notes with
  | none =>
    rw [h1] at h
    exact Option.noConfusion h
  | some dn =>
    cases h2 : parseNotes r.patient_summary with
    | none =>
      rw [h1, h2] at h
      exact Option.noConfusion h
    | some ps =>
      rw [h1, h2] at h
      cases h
      rfl

theorem rowsParse_ids (rows : List Row) (recs : List MemRec)
    (h : rowsParse rows = Option.some recs) :
    recs.map MemRec.id = rows.map (fun r => PyVal.str r.id) := by
  induction rows generalizing recs with
  | nil =>
    unfold rowsParse at h
    cases h
    rfl
  | cons r rest ih =>
    unfold rowsParse at h
    cases hm : parseRow r with
    | none =>
      rw [hm] at h
      exact Option.noConfusion h
    | some m =>
      cases hr : rowsParse rest with
      | none =>
        rw [hm, hr] at h
        exact Option.noConfusion h
      | some ms =>
        rw [hm, hr] at h
        cases h
        simp [ih ms hr, parseRow_id r m hm]

theorem pyEq_str (a b : String) : pyEq (PyVal.str a) (PyVal.str b) = (a == b) := rfl

theorem replace_filter (i : String) (nr : MemRec) (hnr : nr.id = PyVal.str i) :
    ∀ (rows : List Row) (recs : List MemRec),
      rowsParse rows = Option.some recs →
      (rows.map Row.id).Nodup →
      i ∈ rows.map Row.id →
      ((replaceFirst recs nr).map writeRowOf).filter (fun r => r.id == i)
        = [writeRowOf nr] := by
  intro rows
  induction rows with
  | nil =>
    intro recs h hn hm
    simp at hm
  | cons r rest ih =>
    intro recs h hn hm
    unfold rowsParse at h
    cases hpr : parseRow r with
    | none =>
      rw [hpr] at h
      exact Option.noConfusion h
    | some m =>
      cases hrp : rowsParse rest with
      | none =>
        rw [hpr, hrp] at h
        exact Option.noConfusion h
      | some ms =>
        rw [hpr, hrp] at h
        cases h
        have hmid : m.id = PyVal.str r.id := parseRow_id r m hpr
        by_cases hri : r.id = i
        · have hpe : pyEq m.id nr.id = true := by
            rw [hmid, hnr, pyEq_str]
            simp [hri]
          have hrep : replaceFirst (m :: ms) nr = nr :: ms := by
            simp [replaceFirst, hpe]
          rw [hrep]
          have hhead : ((writeRowOf nr).id == i) = true := by
            show (pyCsvStr nr.id == i) = true
            rw [hnr]
            simp [pyCsvStr]
          have htail :
              (ms.map writeRowOf).filter (fun row => row.id == i) = [] := by
            rw [List.filter_eq_nil_iff]
            intro a ha
            obtain ⟨m2, hm2, hwa⟩ := List.mem_map.mp ha
            have hmem2 : m2.id ∈ ms.map MemRec.id := List.mem_map_of_mem _ hm2
            rw [rowsParse_ids rest ms hrp] at hmem2
            obtain ⟨r2, hr2, hid2⟩ := List.mem_map.mp hmem2
            have hnotin : r.id ∉ rest.map Row.id := by
              rw [List.map_cons] at hn
              exact (List.nodup_cons.mp hn).1
            have hne : r2.id ≠ i := by
              intro hcon
              apply hnotin
              rw [hri]
              rw [← hcon]
              exact List.mem_map_of_mem _ hr2
            rw [← hwa]
            show ¬((pyCsvStr m2.id == i) = true)
            rw [← hid2]
            simp [pyCsvStr, hne]
          simp only [List.map_cons, List.filter_cons, hhead, if_true, htail]
        · have hpe : pyEq m.id nr.id = false := by
            rw [hmid, hnr, pyEq_str]
            simp [hri]
          have hrep : replaceFirst (m :: ms) nr = m :: replaceFirst ms nr := by
            simp [replaceFirst, hpe]
          rw [hrep]
          have hhead : ((writeRowOf m).id == i) = false := by
            show (pyCsvStr m.id == i) = false
            rw [hmid]
            simp [pyCsvStr, hri]
          have hm2 : i ∈ rest.map Row.id := by
            rw [List.map_cons] at hm
            cases hm with
            | head => exact absurd rfl hri
            | tail _ hmm => exact hmm
          have hn2 : (rest.map Row.id).Nodup := by
            rw [List.map_cons] at hn
            exact (List.nodup_cons.mp hn).2
          simp only [List.map_cons, List.filter_cons, hhead]
          simp only [Bool.false_eq_true, if_false]
          exact ih ms hrp hn2 hm2

end TH

namespace TH

/-- Claim C7: on a well-formed store (readable rows, duplicate-free ids),
saving a `RecordingEntry` whose id is already present takes the update
path and performs a full replace — afterwards exactly one row carries that
id and it is the serialized second payload; no duplicate row is appended.
Saving the same entry twice in succession is the special case where the
first save put the id in the store. -/
theorem c7_save_replaces (rows : List Row) (recs : List MemRec)
    (d : RecordingData) (now i : String)
    (hparse : rowsParse rows = Option.some recs)
    (hnd : (rows.map Row.id).Nodup)
    (hid : d.id = Option.some (PyVal.str i))
    (hmem : i ∈ rows.map Row.id) :
    ∃ rows2,
      save_recording (FileState.ok rows) d now = (true, FileState.ok rows2) ∧
      rows2.filter (fun r => r.id == i) = [writeRowOf (csvRowOf d now)] := by
  have hcid : (csvRowOf d now).id = PyVal.str i := by
    simp [csvRowOf, hid]
  have hex : get_all_recordings (FileState.ok rows) = recs := by
    simp [get_all_recordings, hparse]
  have hin : PyVal.str i ∈ recs.map MemRec.id := by
    rw [rowsParse_ids rows recs hparse]
    obtain ⟨r0, hr0, hid0⟩ := List.mem_map.mp hmem
    exact List.mem_map.mpr ⟨r0, hr0, by rw [hid0]⟩
  obtain ⟨mrec, hmrec, hmid⟩ := List.mem_map.mp hin
  have hany : recs.any (fun r => pyEq (csvRowOf d now).id r.id) = true := by
    refine List.any_eq_true.mpr ⟨mrec, hmrec, ?_⟩
    rw [hcid, hmid, pyEq_str]
    simp
  refine ⟨(replaceFirst recs (csvRowOf d now)).map writeRowOf, ?_, ?_⟩
  · simp only [save_recording, _update_recording, hex, hany, if_true]
  · exact replace_filter i (csvRowOf d now) hcid rows recs hparse hnd hmem

/-- Witness for `c7_save_replaces` on a concrete one-row store whose single
id is saved again with new values. -/
theorem c7_witness :
    ∃ rows2,
      save_recording
          (FileState.ok [⟨"a", "p", "dd", "2025", "3", "t", "", "", "done"⟩])
          ⟨Option.some (PyVal.str "a"), Option.some (PyVal.str "P2"),
            Option.none, Option.none, Option.none, Option.none, Option.none,
            Option.none, Option.none⟩ "now" = (true, FileState.ok rows2) ∧
      rows2.filter (fun r => r.id == "a") =
        [writeRowOf (csvRowOf
          ⟨Option.some (PyVal.str "a"), Option.some (PyVal.str "P2"),
            Option.none, Option.none, Option.none, Option.none, Option.none,
            Option.none, Option.none⟩ "now")] :=
  c7_save_replaces [⟨"a", "p", "dd", "2025", "3", "t", "", "", "done"⟩]
    [⟨PyVal.str "a", PyVal.str "p", PyVal.str "dd", PyVal.str "2025",
      PyVal.str "3", PyVal.str "t", PyVal.dict [], PyVal.dict [],
      PyVal.str "done"⟩]
    ⟨Option.some (PyVal.str "a"), Option.some (PyVal.str "P2"), Option.none,
      Option.none, Option.none, Option.none, Option.none, Option.none,
      Option.none⟩ "now" "a" rfl (by simp) rfl (by simp)

theorem get_recording_singleton (row : Row) (i : String)
    (h : (row.id == i) = true) :
    get_recording (FileState.ok [row]) i = parseRow row := by
  have hf : List.find? (fun r => r.id == i) [row] = Option.some row :=
    List.find?_cons_of_pos [] h
  simp only [get_recording]
  rw [hf]

end TH

namespace TH

/-- Claim C10: after saving a `RecordingEntry` into an empty store, reading
it back returns every scalar field as the string written into the CSV row
— the defaulted numeric duration `0` comes back as the string `"0"`, which
is a different value than the integer `0` — while the two notes columns
are re-parsed from their serialized JSON into objects (and an empty notes
column parses to the empty dict).  The save-then-read round trip is not
the identity on field types.  The two `jsonLoads`/`jsonDumps` hypotheses
pin the JSON round trip for the payload's notes values and are discharged
by computation in the witness. -/
theorem c10_read_back_types (d : RecordingData) (now i : String)
    (hid : d.id = Option.some (PyVal.str i))
    (hdur : d.duration = Option.none)
    (hdn : jsonLoads ((jsonDumps (d.doctorNotes.getD (PyVal.dict []))).toList)
        = Option.some (d.doctorNotes.getD (PyVal.dict [])))
    (hps : jsonLoads ((jsonDumps (d.patientSummary.getD (PyVal.dict []))).toList)
        = Option.some (d.patientSummary.getD (PyVal.dict []))) :
    ∃ m, get_recording (save_recording (FileState.ok []) d now).2 i
        = Option.some m ∧
      m.duration = PyVal.str "0" ∧
      PyVal.str "0" ≠ PyVal.int 0 ∧
      m.patient_name = PyVal.str (pyCsvStr (d.patientName.getD PyVal.none)) ∧
      m.doctor_name = PyVal.str (pyCsvStr (d.doctorName.getD PyVal.none)) ∧
      m.date = PyVal.str (pyCsvStr (d.date.getD (PyVal.str now))) ∧
      m.transcription
        = PyVal.str (pyCsvStr (d.transcription.getD (PyVal.str ""))) ∧
      m.status = PyVal.str (pyCsvStr (d.status.getD (PyVal.str "completed"))) ∧
      m.doctor_notes = d.doctorNotes.getD (PyVal.dict []) ∧
      m.patient_summary = d.patientSummary.getD (PyVal.dict []) ∧
      parseNotes "" = Option.some (PyVal.dict []) := by
  have hsave : save_recording (FileState.ok []) d now
      = (true, FileState.ok [writeRowOf (csvRowOf d now)]) := by
    simp [save_recording, get_all_recordings, rowsParse]
  have hdurcell : pyCsvStr ((csvRowOf d now).duration) = "0" := by
    simp [csvRowOf, hdur, pyCsvStr]
    decide
  have hrowid : ((writeRowOf (csvRowOf d now)).id == i) = true := by
    show (pyCsvStr (csvRowOf d now).id == i) = true
    simp [csvRowOf, hid, pyCsvStr]
  have hdnne : jsonDumps (d.doctorNotes.getD (PyVal.dict [])) ≠ "" := by
    intro hcon
    rw [hcon] at hdn
    exact Option.noConfusion hdn
  have hpsne : jsonDumps (d.patientSummary.getD (PyVal.dict [])) ≠ "" := by
    intro hcon
    rw [hcon] at hps
    exact Option.noConfusion hps
  have hn1 : parseNotes ((writeRowOf (csvRowOf d now)).doctor_notes)
      = Option.some (d.doctorNotes.getD (PyVal.dict [])) := by
    show parseNotes (pyCsvStr (csvRowOf d now).doctor_notes) = _
    simp only [csvRowOf, pyCsvStr]
    unfold parseNotes
    rw [if_neg hdnne, hdn]
  have hn2 : parseNotes ((writeRowOf (csvRowOf d now)).patient_summary)
      = Option.some (d.patientSummary.getD (PyVal.dict [])) := by
    show parseNotes (pyCsvStr (csvRowOf d now).patient_summary) = _
    simp only [csvRowOf, pyCsvStr]
    unfold parseNotes
    rw [if_neg hpsne, hps]
  refine ⟨⟨PyVal.str ((writeRowOf (csvRowOf d now)).id),
      PyVal.str (pyCsvStr (d.patientName.getD PyVal.none)),
      PyVal.str (pyCsvStr (d.doctorName.getD PyVal.none)),
      PyVal.str (pyCsvStr (d.date.getD (PyVal.str now))),
      PyVal.str "0",
      PyVal.str (pyCsvStr (d.transcription.getD (PyVal.str ""))),
      d.doctorNotes.getD (PyVal.dict []),
      d.patientSummary.getD (PyVal.dict []),
      PyVal.str (pyCsvStr (d.status.getD (PyVal.str "completed")))⟩,
    ?_, rfl, by intro h; injection h, rfl, rfl, rfl, rfl, rfl, rfl, rfl, rfl⟩
  rw [hsave]
  rw [get_recording_singleton (writeRowOf (csvRowOf d now)) i hrowid]
  unfold parseRow
  rw [hn1, hn2]
  show Option.some _ = Option.some _
  congr 1
  show MemRec.mk _ _ _ _ _ _ _ _ _ = _
  congr 1
  · show PyVal.str (pyCsvStr (csvRowOf d now).duration) = PyVal.str "0"
    rw [hdurcell]

end TH

namespace TH

/-- Witness for `c10_read_back_types` at a concrete payload: the JSON
round-trip hypotheses are discharged by computation. -/
theorem c10_witness :
    ∃ m, get_recording (save_recording (FileState.ok []) wPayload "2025-02-02").2 "r1"
        = Option.some m ∧
      m.duration = PyVal.str "0" ∧
      PyVal.str "0" ≠ PyVal.int 0 ∧
      m.patient_name = PyVal.str (pyCsvStr (wPayload.patientName.getD PyVal.none)) ∧
      m.doctor_name = PyVal.str (pyCsvStr (wPayload.doctorName.getD PyVal.none)) ∧
      m.date = PyVal.str (pyCsvStr (wPayload.date.getD (PyVal.str "2025-02-02"))) ∧
      m.transcription
        = PyVal.str (pyCsvStr (wPayload.transcription.getD (PyVal.str ""))) ∧
      m.status
        = PyVal.str (pyCsvStr (wPayload.status.getD (PyVal.str "completed"))) ∧
      m.doctor_notes = wPayload.doctorNotes.getD (PyVal.dict []) ∧
      m.patient_summary = wPayload.patientSummary.getD (PyVal.dict []) ∧
      parseNotes "" = Option.some (PyVal.dict []) :=
  c10_read_back_types wPayload "2025-02-02" "r1" rfl rfl rfl rfl

end TH
